import Mathlib

/-!
Verification development for the DeathLogger server repository.

The repository contains two near-duplicate Express servers:
  * `src/server.js`            (the "srv" variant below)
  * `src/unnamed/part_000`     (the "p0" variant below)

JavaScript values flowing through the handlers are modelled by `JVal`
(atomic JSON values; the claims under study never inspect nested
arrays/objects inside a field value, so field values are modelled
atomically), and JavaScript objects by association lists with
last-assignment-wins lookup, which is the observable semantics of
property reads after a sequence of property writes / object spreads.
-/

namespace DeathLogger

/-- Atomic JSON/JavaScript value. `null` stands for JS `null`;
an absent property is `Option.none` at the lookup level (JS `undefined`). -/
inductive JVal where
  | null
  | bool (b : Bool)
  | num (n : Int)
  | str (s : String)
deriving DecidableEq, Repr

/-- A JavaScript object, as the sequence of property assignments that built
it. Lookup returns the value of the last assignment to the key. -/
abbrev Obj := List (String × JVal)

/-- Property read `o[k]`: the last assignment to `k` wins (later object
literal entries and later spreads override earlier ones in JS). -/
def getF : Obj → String → Option JVal
  | [], _ => none
  | (k0, v0) :: rest, k =>
    match getF rest k with
    | some v => some v
    | none => if k0 = k then some v0 else none

/-- Property write `o[k] = v`. Earlier assignments to `k` are dropped; only
lookup semantics (not JS insertion-order of keys) is modelled. -/
def setF (o : Obj) (k : String) (v : JVal) : Obj :=
  (o.filter (fun p => p.1 != k)) ++ [(k, v)]

/-- JS nullish coalescing `x ?? d`: `d` for `null`/`undefined`, else `x`. -/
def nullishOr (x : Option JVal) (d : JVal) : JVal :=
  match x with
  | some .null => d
  | some v => v
  | none => d

/-- JS truthiness of an atomic value. -/
def truthy : JVal → Bool
  | .null => false
  | .bool b => b
  | .num n => n != 0
  | .str s => s != ""

/-- JS logical-or defaulting `x || d`: `d` whenever `x` is falsy. -/
def jsOr (x : Option JVal) (d : JVal) : JVal :=
  match x with
  | some v => if truthy v then v else d
  | none => d

/-- JS `x != null`: the property is present and not `null`. -/
def presentNN (x : Option JVal) : Bool :=
  match x with
  | some .null => false
  | some _ => true
  | none => false

/-- JS template-literal stringification of an atomic value. -/
def jsToString : JVal → String
  | .null => "null"
  | .bool true => "true"
  | .bool false => "false"
  | .num n => toString n
  | .str s => s

/-! Money arithmetic.  In both variants the gold/silver/copper decomposition
of an integer copper total `t` is
  `g = Math.floor(t / 10000)`, `s = Math.floor((t % 10000) / 100)`,
  `c = t % 100`.
`Math.floor` of a quotient of integers is floor division (`Int.fdiv`);
the JS `%` operator truncates toward zero (`Int.tmod`). -/

/-- The shared gold/silver/copper decomposition of a copper total. -/
def gscDecomp (t : Int) : Int × Int × Int :=
  (Int.fdiv t 10000, Int.fdiv (Int.tmod t 10000) 100, Int.tmod t 100)

/-- Decomposition applied to a JS value, with JS number coercion for
booleans; string-to-number coercion is not modelled (no claim exercises a
numeric-string money field), such values arithmetically yield `NaN`. -/
def gscOfVal (v : JVal) : JVal × JVal × JVal :=
  match v with
  | .num t => let p := gscDecomp t; (.num p.1, .num p.2.1, .num p.2.2)
  | .bool b => let p := gscDecomp (if b then 1 else 0); (.num p.1, .num p.2.1, .num p.2.2)
  | _ => (.str "NaN", .str "NaN", .str "NaN")

/-- The `(g, s, c)` values that `moneyString` (src/server.js) interpolates
into its coin markup: if `typeof d.moneyCopper === "number"` that value is
decomposed as a total; otherwise `g = d.moneyGold ?? 0`,
`s = d.moneySilver ?? 0`, `c = d.moneyCopperOnly ?? 0`. -/
def moneyString_parts (d : Obj) : JVal × JVal × JVal :=
  match getF d "moneyCopper" with
  | some (.num t) =>
    let p := gscDecomp t
    (.num p.1, .num p.2.1, .num p.2.2)
  | _ =>
    (nullishOr (getF d "moneyGold") (.num 0),
     nullishOr (getF d "moneySilver") (.num 0),
     nullishOr (getF d "moneyCopperOnly") (.num 0))

/-- The `(g, s, c)` values that `fmtMoneyHTML` (src/unnamed/part_000)
interpolates, or `none` when the function returns the empty string: the
decomposed triple is used verbatim when any of its fields is non-null,
else a non-null `moneyCopperOnly` is decomposed as a total. -/
def fmtMoneyHTML_parts (d : Obj) : Option (JVal × JVal × JVal) :=
  if presentNN (getF d "moneyGold") || presentNN (getF d "moneySilver") ||
      presentNN (getF d "moneyCopper") then
    some (nullishOr (getF d "moneyGold") (.num 0),
          nullishOr (getF d "moneySilver") (.num 0),
          nullishOr (getF d "moneyCopper") (.num 0))
  else
    match getF d "moneyCopperOnly" with
    | some .null => none
    | none => none
    | some v => some (gscOfVal v)

/-- The string the profile tally renders for a total: a decomposed
gold/silver/copper string, the backtick template from `tallyTotals`. -/
def gscString (t : Int) : String :=
  let p := gscDecomp t
  toString p.1 ++ "g " ++ toString p.2.1 ++ "s " ++ toString p.2.2 ++ "c"

/-- The profile money tally (src/unnamed/part_000 `tallyTotals`): sum the
`moneyCopperOnly` fields that are numbers; `none` when no record carried
one, else the decomposed string of the sum. -/
def tallyTotals (deaths : List Obj) : Option String :=
  let acc := deaths.foldl
    (fun (a : Int × Nat) d =>
      match getF d "moneyCopperOnly" with
      | some (.num n) => (a.1 + n, a.2 + 1)
      | _ => a)
    (0, 0)
  if acc.2 = 0 then none else some (gscString acc.1)

/-- Specification-side list of the numeric `moneyCopperOnly` values of a
list of records (used to state what `tallyTotals` computes). -/
def moneyVals (l : List Obj) : List Int :=
  l.filterMap (fun d =>
    match getF d "moneyCopperOnly" with
    | some (.num n) => some n
    | _ => none)

/-- The `player@realm` composite key of a record
(src/unnamed/part_000 `slugFor`). -/
def slugFor (d : Obj) : String :=
  jsToString (nullishOr (getF d "player") (.str "Unknown")) ++ "@" ++
  jsToString (nullishOr (getF d "realm") (.str "Unknown"))

/-- Observable outcome of the profile route: 404, or a page reporting the
death count and the optional money-total string. -/
inductive ProfileResp where
  | notFound
  | page (deathCount : Nat) (goldTotal : Option String)
deriving DecidableEq, Repr

/-- The `GET /player/:slug` route of src/unnamed/part_000: filter the store
by the slug, 404 on no match, else render `profilePage` whose header shows
the match count and `tallyTotals` of the matches. -/
def profileGet (store : List Obj) (slug : String) : ProfileResp :=
  let mine := store.filter (fun d => slugFor d == slug)
  if mine.length = 0 then .notFound
  else .page mine.length (tallyTotals mine)

/-! HTML escaping.  Both variants define `escapeHtml` as four chained
`String.replaceAll` calls; `src/server.js` additionally defines
`escapeAttr` which also replaces the apostrophe.  `replaceAll` with a
single-character pattern is character-wise substitution. -/

/-- The apostrophe character. -/
def apos : Char := Char.ofNat 39

/-- Character-wise substitution: every occurrence of the character `c` is
replaced by the string `r` (JS `String.replaceAll` with a one-character
pattern). -/
def replaceAllC (c : Char) (r : List Char) : List Char → List Char
  | [] => []
  | x :: xs => (if x = c then r else [x]) ++ replaceAllC c r xs

/-- The `escapeHtml` helper (both variants): replaces, in order,
ampersand, less-than, greater-than and double-quote by their entities. -/
def escapeHtml (s : List Char) : List Char :=
  replaceAllC '\"' ['&', 'q', 'u', 'o', 't', ';']
    (replaceAllC '>' ['&', 'g', 't', ';']
      (replaceAllC '<' ['&', 'l', 't', ';']
        (replaceAllC '&' ['&', 'a', 'm', 'p', ';'] s)))

/-- The `escapeAttr` helper (src/server.js only): `escapeHtml`, then the
apostrophe is replaced by its numeric entity. -/
def escapeAttr (s : List Char) : List Char :=
  replaceAllC apos ['&', '#', '3', '9', ';'] (escapeHtml s)

/-! Upload intake. -/

/-- An uploaded file as the multer `fileFilter` sees it. -/
structure UploadedFile where
  mimetype : String
  originalname : String
deriving DecidableEq, Repr

/-- JS `toLowerCase`, character-wise (all strings involved are ASCII). -/
def jsToLower (s : String) : String :=
  String.mk (s.data.map Char.toLower)

/-- Suffix of a character list starting at its last dot, if any. -/
def extSuffix : List Char → Option (List Char)
  | [] => none
  | c :: cs =>
    match extSuffix cs with
    | some e => some e
    | none => if c = '.' then some (c :: cs) else none

/-- Node `path.extname` on a bare file name: the suffix from the last dot,
empty when there is no dot or the only dot is the leading character
(dot-file rule).  Names consisting solely of dots are not modelled
exactly; no claim exercises them. -/
def extname (s : String) : String :=
  match s.toList with
  | [] => ""
  | _ :: rest =>
    match extSuffix rest with
    | some e => String.mk e
    | none => ""

/-- src/server.js `extFromOriginalName`: the lower-cased extension of the
original file name when it is one of the recognized image extensions,
else the empty string. -/
def extFromOriginalName (name : String) : String :=
  let e := jsToLower (extname name)
  if [".jpg", ".jpeg", ".png", ".webp", ".tga"].contains e then e else ""

/-- src/server.js `getSafeExtFromMime`. -/
def getSafeExtFromMime (mime : String) : String :=
  let m := jsToLower mime
  if m = "image/jpeg" then ".jpg"
  else if m = "image/png" then ".png"
  else if m = "image/webp" then ".webp"
  else if m = "image/tga" then ".tga"
  else if m = "image/x-tga" then ".tga"
  else ""

/-- The multer `fileFilter` of src/server.js: accept when the lower-cased
mimetype is in its allow-list (which includes the tga types and
`application/octet-stream`) or the original name has a recognized image
extension. -/
def fileFilter_srv (f : UploadedFile) : Bool :=
  let mime := jsToLower f.mimetype
  let okMime := ["image/jpeg", "image/png", "image/webp", "image/tga",
    "image/x-tga", "application/octet-stream"].contains mime
  let okExt := [".jpg", ".jpeg", ".png", ".webp", ".tga"].contains
    (extFromOriginalName f.originalname)
  okMime || okExt

/-- The multer `fileFilter` of src/unnamed/part_000: accept exactly the
three mimetypes `image/jpeg`, `image/png`, `image/webp`. -/
def fileFilter_p0 (f : UploadedFile) : Bool :=
  ["image/jpeg", "image/png", "image/webp"].contains f.mimetype

/-- src/server.js `multer.diskStorage` file name: a generated id `fid`
followed by the extension from the original name, else from the mimetype,
else `.bin`. -/
def storedFileNameSrv (fid : String) (f : UploadedFile) : String :=
  let byMime := getSafeExtFromMime f.mimetype
  let byName := extFromOriginalName f.originalname
  let ext := if byName ≠ "" then byName else if byMime ≠ "" then byMime else ".bin"
  fid ++ ext

/-- src/server.js screenshot public path: a stored `.tga` file is converted
to `<fid>.png` when the conversion succeeds (`convOk`), kept verbatim on
conversion failure; other files are kept verbatim. -/
def publicPathSrv (fid : String) (f : UploadedFile) (convOk : Bool) : String :=
  let name := storedFileNameSrv fid f
  if jsToLower (extname name) = ".tga" then
    if convOk then "/uploads/" ++ fid ++ ".png"
    else "/uploads/" ++ name
  else "/uploads/" ++ name

/-- src/unnamed/part_000 screenshot path: `<fresh id>.<ext>` under
`/screens`, extension chosen from the mimetype (default `jpg`). -/
def shotPathP0 (fresh : String) (f : UploadedFile) : String :=
  let ext := if f.mimetype = "image/png" then "png"
    else if f.mimetype = "image/webp" then "webp" else "jpg"
  "/screens/" ++ fresh ++ "." ++ ext

/-- The request body as the src/server.js upload handler sees it: either
multipart fields (with an optional `death` text field) or a plain-text
body. -/
inductive ReqBodySrv where
  | fields (death : Option String)
  | text (s : String)
deriving DecidableEq, Repr

/-- src/server.js raw `death` text resolution: `req.body.death`, falling
back to a string body; the handler then treats a falsy result (absent or
empty) as missing. -/
def deathRawSrv : ReqBodySrv → Option String
  | .fields (some s) => if s = "" then none else some s
  | .fields none => none
  | .text s => if s = "" then none else some s

/-- Observable outcome of a `POST /upload` request: a multer file-filter
rejection (the error propagates to the framework error handler before the
route handler runs), or a JSON response with a status and body. -/
inductive UploadResp where
  | rejectedFile (msg : String)
  | json (status : Nat) (body : Obj)
deriving DecidableEq, Repr

/-- HTTP status of a JSON upload response. -/
def statusOf : UploadResp → Option Nat
  | .rejectedFile _ => none
  | .json s _ => some s

/-- The catch-all of the src/server.js upload route: any exception becomes a
generic `500 {error:"server_error"}`; the exception text is only logged. -/
def catch_srv (_e : String) : UploadResp :=
  .json 500 [("error", .str "server_error")]

/-- The catch-all of the src/unnamed/part_000 upload route: any exception
becomes a 500 whose body carries `String(e)`, the stringified exception. -/
def catch_p0 (e : String) : UploadResp :=
  .json 500 [("error", .str e)]

/-- Record construction of the src/server.js upload route:
`{ id, receivedAt, ...payload, at: ..., player: ..., realm: ...,
screenshot: publicPath }` — the payload is spread after `id`, then `at`
(taken from the payload when a number, else `now`), `player`/`realm` (`|| "Unknown"`)
and `screenshot` are assigned. -/
def mkRecordSrv (fresh : String) (now : Int) (payload : Obj)
    (shot : Option String) : Obj :=
  let o := setF (setF [] "id" (.str fresh)) "receivedAt" (.num now)
  let o := payload.foldl (fun acc kv => setF acc kv.1 kv.2) o
  let o := setF o "at"
    (match getF payload "at" with
     | some (.num n) => .num n
     | _ => .num now)
  let o := setF o "player" (jsOr (getF payload "player") (.str "Unknown"))
  let o := setF o "realm" (jsOr (getF payload "realm") (.str "Unknown"))
  setF o "screenshot" (match shot with | some p => .str p | none => .null)

/-- Record construction of the src/unnamed/part_000 upload route: the parsed
payload with `death.id = id` assigned, and `death.screenshot` assigned
only when a file was uploaded. -/
def mkRecordP0 (fresh : String) (payload : Obj)
    (shotFile : Option UploadedFile) : Obj :=
  let o := setF payload "id" (.str fresh)
  match shotFile with
  | some f => setF o "screenshot" (.str (shotPathP0 fresh f))
  | none => o

/-- The `POST /upload` route of src/server.js, as a function of the parse
oracle for `JSON.parse` (errors carry `String(e)`), the optional uploaded
file, the storage-generated file id, the tga-conversion outcome, the
request body, the fresh record id, the receipt time and the current store.
Returns the response and the resulting store. -/
def uploadSrv (parse : String → Except String Obj) (fileIn : Option UploadedFile)
    (fid : String) (convOk : Bool) (body : ReqBodySrv) (fresh : String)
    (now : Int) (store : List Obj) : UploadResp × List Obj :=
  let handler := fun (shot : Option String) =>
    match deathRawSrv body with
    | none => (UploadResp.json 400 [("error", .str "missing_death_json")], store)
    | some raw =>
      match parse raw with
      | .error e =>
        (UploadResp.json 400 [("error", .str "bad_json"), ("detail", .str e)], store)
      | .ok payload =>
        (UploadResp.json 200 [("ok", .bool true), ("id", .str fresh)],
         store ++ [mkRecordSrv fresh now payload shot])
  match fileIn with
  | some f =>
    if fileFilter_srv f then handler (some (publicPathSrv fid f convOk))
    else (UploadResp.rejectedFile "Unsupported image type (allowing jpg/png/webp/tga)", store)
  | none => handler none

/-- The `POST /upload` route of src/unnamed/part_000, analogous to
`uploadSrv`: missing/empty `death` field gives 400; a parse failure is
thrown and caught by the generic catch (500 carrying the message); success
prepends the record and answers `{ok, id, screenshot}`. -/
def uploadP0 (parse : String → Except String Obj) (fileIn : Option UploadedFile)
    (deathField : Option String) (fresh : String)
    (store : List Obj) : UploadResp × List Obj :=
  let handler := fun (shotFile : Option UploadedFile) =>
    match deathField with
    | none => (UploadResp.json 400 [("error", .str "Missing death payload")], store)
    | some raw =>
      if raw = "" then
        (UploadResp.json 400 [("error", .str "Missing death payload")], store)
      else
        match parse raw with
        | .error e => (catch_p0 e, store)
        | .ok payload =>
          let record := mkRecordP0 fresh payload shotFile
          (UploadResp.json 200
             [("ok", .bool true), ("id", .str fresh),
              ("screenshot", nullishOr (getF record "screenshot") .null)],
           record :: store)
  match fileIn with
  | some f =>
    if fileFilter_p0 f then handler (some f)
    else (UploadResp.rejectedFile "Unsupported image type (jpg/png/webp only)", store)
  | none => handler none

/-- Record lookup by id (`rows.find(r => r.id === id)` in both variants):
strict equality against a string id matches only a string-valued `id`. -/
def findById (store : List Obj) (id : String) : Option Obj :=
  store.find? (fun r =>
    match getF r "id" with
    | some (.str s) => s == id
    | _ => false)

/-- Sort key of the home listing of src/server.js: `d.at ?? 0`, with a
non-numeric `at` not modelled (treated as 0; no claim exercises it). -/
def atKey (d : Obj) : Int :=
  match getF d "at" with
  | some (.num n) => n
  | _ => 0

/-- The records the home page of src/server.js renders:
`readDB().sort((a, b) => (b.at ?? 0) - (a.at ?? 0))` — a stable sort by
`at` descending, with no cap on the number of rendered records. -/
def homeRows_srv (store : List Obj) : List Obj :=
  store.mergeSort (fun a b => decide (atKey b ≤ atKey a))

/-- The records the home page of src/unnamed/part_000 renders:
`deaths.slice(0, 50)` — the first 50 records in stored order, unsorted. -/
def homeRows_p0 (store : List Obj) : List Obj :=
  store.take 50

/-! Concrete fixtures used by counterexamples and witnesses. -/

/-- A record carrying the decomposed money triple 1g 23s 45c. -/
def dTriple : Obj :=
  [("moneyGold", .num 1), ("moneySilver", .num 23), ("moneyCopper", .num 45)]

/-- A record carrying the single copper total 12345 (= 1g 23s 45c). -/
def dCopperOnly : Obj := [("moneyCopperOnly", .num 12345)]

/-- An upload payload that itself carries an `id` field. -/
def payloadEvil : Obj := [("id", JVal.str "evil"), ("player", JVal.str "Mort")]

/-- An upload payload with a numeric `at` and no `id`/`player`/`realm`. -/
def payloadW : Obj := [("at", JVal.num 77), ("class", JVal.str "MAGE")]

/-- Two deaths of the same character losing 100 and 50 copper. -/
def profileStoreEx : List Obj :=
  [[("player", .str "Bob"), ("realm", .str "Realm"), ("moneyCopperOnly", .num 100)],
   [("player", .str "Bob"), ("realm", .str "Realm"), ("moneyCopperOnly", .num 50)]]

/-- A record with an early timestamp. -/
def rLow : Obj := [("id", .str "a"), ("at", .num 1)]

/-- A record with a later timestamp. -/
def rHigh : Obj := [("id", .str "b"), ("at", .num 5)]

/-- An upload whose declared content-type is not an image type but whose
file name carries an allow-listed extension. -/
def fBad : UploadedFile := ⟨"text/plain", "x.png"⟩

/-! Lookup lemmas for the object model. -/

theorem getF_append (l₁ l₂ : Obj) (k : String) :
    getF (l₁ ++ l₂) k = (getF l₂ k).or (getF l₁ k) := by
  induction l₁ with
  | nil => simp [getF]
  | cons p rest ih =>
    cases p with
    | mk k0 v0 =>
      simp only [List.cons_append, getF]
      cases h2 : getF l₂ k <;> cases h1 : getF rest k <;>
        simp [Option.or, ih, h1, h2]

theorem getF_filter_ne (l : Obj) (k k' : String) (h : k' ≠ k) :
    getF (l.filter (fun p => p.1 != k)) k' = getF l k' := by
  induction l with
  | nil => rfl
  | cons p rest ih =>
    by_cases hp : p.1 = k
    · have : (p.1 != k) = false := by simp [hp]
      simp only [List.filter_cons, this, Bool.false_eq_true, if_false, ih]
      cases hr : getF rest k' <;> simp [getF, hr, hp, Ne.symm h]
    · have : (p.1 != k) = true := by simp [hp]
      simp only [List.filter_cons, this, if_true, getF, ih]

theorem getF_setF (o : Obj) (k k' : String) (v : JVal) :
    getF (setF o k v) k' = if k' = k then some v else getF o k' := by
  unfold setF
  rw [getF_append]
  by_cases h : k' = k
  · subst h
    simp [getF, Option.or]
  · simp [getF, Ne.symm h, h, getF_filter_ne _ _ _ h, Option.or]

theorem getF_foldl (l : List (String × JVal)) (o : Obj) (k : String) :
    getF (l.foldl (fun acc kv => setF acc kv.1 kv.2) o) k =
      (getF l k).or (getF o k) := by
  induction l generalizing o with
  | nil => simp [getF]
  | cons p rest ih =>
    simp only [List.foldl_cons, ih, getF_setF]
    cases hr : getF rest k <;> by_cases h : p.1 = k <;>
      simp [getF, hr, h, Ne.symm, Option.or]

/-! Membership lemmas for the escaping helpers. -/

theorem mem_replaceAllC {t c : Char} {r s : List Char} :
    t ∈ replaceAllC c r s ↔ ∃ x ∈ s, t ∈ (if x = c then r else [x]) := by
  induction s with
  | nil => simp [replaceAllC]
  | cons x xs ih =>
    simp only [replaceAllC, List.mem_append, ih, List.mem_cons]
    constructor
    · rintro (h | ⟨y, hy, hmem⟩)
      · exact ⟨x, Or.inl rfl, h⟩
      · exact ⟨y, Or.inr hy, hmem⟩
    · rintro ⟨y, (rfl | hy), hmem⟩
      · exact Or.inl hmem
      · exact Or.inr ⟨y, hy, hmem⟩

theorem not_mem_replaceAllC {t c : Char} {r s : List Char}
    (hr : t ∉ r) (hcs : t = c ∨ t ∉ s) : t ∉ replaceAllC c r s := by
  rw [mem_replaceAllC]
  rintro ⟨x, hx, hmem⟩
  by_cases hxc : x = c
  · rw [if_pos hxc] at hmem
    exact hr hmem
  · rw [if_neg hxc] at hmem
    rcases List.mem_singleton.mp hmem with rfl
    rcases hcs with h | h
    · exact hxc h
    · exact h hx

theorem escapeHtml_no_specials (s : List Char) :
    '<' ∉ escapeHtml s ∧ '>' ∉ escapeHtml s ∧ '\"' ∉ escapeHtml s := by
  unfold escapeHtml
  refine ⟨?_, ?_, ?_⟩
  · exact not_mem_replaceAllC (by decide)
      (Or.inr (not_mem_replaceAllC (by decide)
        (Or.inr (not_mem_replaceAllC (by decide) (Or.inl rfl)))))
  · exact not_mem_replaceAllC (by decide)
      (Or.inr (not_mem_replaceAllC (by decide) (Or.inl rfl)))
  · exact not_mem_replaceAllC (by decide) (Or.inl rfl)

theorem escapeAttr_no_apos (s : List Char) : apos ∉ escapeAttr s := by
  unfold escapeAttr
  exact not_mem_replaceAllC (by decide) (Or.inl rfl)

/-! Tally lemmas. -/

theorem tally_foldl (l : List Obj) (a : Int) (k : Nat) :
    l.foldl
      (fun (acc : Int × Nat) d =>
        match getF d "moneyCopperOnly" with
        | some (.num n) => (acc.1 + n, acc.2 + 1)
        | _ => acc)
      (a, k) =
    (a + (moneyVals l).sum, k + (moneyVals l).length) := by
  induction l generalizing a k with
  | nil => simp [moneyVals]
  | cons d rest ih =>
    cases h : getF d "moneyCopperOnly" with
    | none =>
      have hmv : moneyVals (d :: rest) = moneyVals rest := by simp [moneyVals, h]
      simp only [List.foldl_cons, h, hmv]
      exact ih a k
    | some v =>
      cases v with
      | null =>
        have hmv : moneyVals (d :: rest) = moneyVals rest := by simp [moneyVals, h]
        simp only [List.foldl_cons, h, hmv]
        exact ih a k
      | bool b =>
        have hmv : moneyVals (d :: rest) = moneyVals rest := by simp [moneyVals, h]
        simp only [List.foldl_cons, h, hmv]
        exact ih a k
      | str s =>
        have hmv : moneyVals (d :: rest) = moneyVals rest := by simp [moneyVals, h]
        simp only [List.foldl_cons, h, hmv]
        exact ih a k
      | num n =>
        have hmv : moneyVals (d :: rest) = n :: moneyVals rest := by
          simp [moneyVals, h]
        simp only [List.foldl_cons, h, hmv, List.sum_cons, List.length_cons,
          ih, Prod.mk.injEq]
        constructor <;> omega

theorem tallyTotals_eq (l : List Obj) :
    tallyTotals l =
      if moneyVals l = [] then none
      else some (gscString (moneyVals l).sum) := by
  unfold tallyTotals
  rw [tally_foldl]
  by_cases h : moneyVals l = [] <;>
    simp [h, List.length_eq_zero]

/-! Claim theorems. -/

/-- Claim C1 (code_bug): the two money representations do NOT render
identically in src/server.js.  Its `moneyString` decomposes `moneyCopper`
(the copper component of the triple) as if it were the total, and prints
`moneyCopperOnly` (the total) as the raw copper digit: the triple
1g 23s 45c renders as 0/0/45 and the total 12345 renders as 0/0/12345.
The part_000 `fmtMoneyHTML` renders 1/23/45 for both, as the claim
states. -/
theorem C1_moneyString_swapped :
    moneyString_parts dTriple = (.num 0, .num 0, .num 45) ∧
    moneyString_parts dCopperOnly = (.num 0, .num 0, .num 12345) ∧
    fmtMoneyHTML_parts dTriple = some (.num 1, .num 23, .num 45) ∧
    fmtMoneyHTML_parts dCopperOnly = some (.num 1, .num 23, .num 45) := by
  decide

/-- Claim C2, counterexample: `escapeHtml` (the escaping applied to player
names, realms, item names, zones and killer names in both variants) does
not escape the apostrophe, the fifth HTML-significant character — it
passes through unchanged. -/
theorem C2_counterexample :
    escapeHtml [apos] = [apos] ∧ apos ∈ escapeHtml [apos] := by
  decide

/-- Claim C2, amended: `escapeHtml` escapes the four characters ampersand,
less-than, greater-than and double-quote — its output contains no raw
less-than, greater-than or double-quote character, and in particular never
contains a `<script>` substring — and `escapeAttr` (src/server.js, used in
attribute positions) additionally eliminates the apostrophe.  The
apostrophe is NOT escaped by `escapeHtml` itself. -/
theorem C2_escaping_amended (s : List Char) :
    '<' ∉ escapeHtml s ∧ '>' ∉ escapeHtml s ∧ '\"' ∉ escapeHtml s ∧
    ¬ ("<script>".toList <:+: escapeHtml s) ∧
    apos ∉ escapeAttr s := by
  obtain ⟨h1, h2, h3⟩ := escapeHtml_no_specials s
  refine ⟨h1, h2, h3, ?_, escapeAttr_no_apos s⟩
  intro hinf
  exact h1 (hinf.sublist.subset (by decide))

/-- Claim C2, amended, witness at a concrete string containing a script
tag. -/
theorem C2_escaping_amended_witness :
    '<' ∉ escapeHtml "<script>alert(1)</script>".toList ∧
    '>' ∉ escapeHtml "<script>alert(1)</script>".toList ∧
    '\"' ∉ escapeHtml "<script>alert(1)</script>".toList ∧
    ¬ ("<script>".toList <:+: escapeHtml "<script>alert(1)</script>".toList) ∧
    apos ∉ escapeAttr "<script>alert(1)</script>".toList :=
  C2_escaping_amended "<script>alert(1)</script>".toList

/-- Claim C3 (code_bug): in src/server.js the payload is spread after the
fresh `id`, so a payload carrying its own `id` overrides the fresh one;
the response still returns the fresh id (and carries no `screenshot` key),
and the stored record is NOT retrievable by the returned id. -/
theorem C3_returned_id_not_stored :
    (uploadSrv (fun _ => .ok payloadEvil) none "S" true
        (.fields (some "raw")) "F7" 1000 []).1
      = .json 200 [("ok", .bool true), ("id", .str "F7")] ∧
    getF (mkRecordSrv "F7" 1000 payloadEvil none) "id" = some (.str "evil") ∧
    findById (uploadSrv (fun _ => .ok payloadEvil) none "S" true
        (.fields (some "raw")) "F7" 1000 []).2 "F7" = none ∧
    findById (uploadSrv (fun _ => .ok payloadEvil) none "S" true
        (.fields (some "raw")) "F7" 1000 []).2 "evil"
      = some (mkRecordSrv "F7" 1000 payloadEvil none) := by
  decide

/-- Claim C4, counterexample: src/server.js accepts an upload whose
declared content-type `text/plain` is outside the image allow-list
(because the file name extension is allow-listed), appends a record, and
answers 200; it also accepts the non-image type
`application/octet-stream` outright. -/
theorem C4_counterexample :
    fileFilter_srv fBad = true ∧
    fileFilter_srv ⟨"application/octet-stream", "data"⟩ = true ∧
    (uploadSrv (fun _ => .ok [("player", .str "A")]) (some fBad) "S1" true
        (.fields (some "raw")) "F8" 5 []).2.length = 1 ∧
    statusOf (uploadSrv (fun _ => .ok [("player", .str "A")]) (some fBad) "S1"
        true (.fields (some "raw")) "F8" 5 []).1 = some 200 := by
  decide

/-- Claim C4, amended: an upload is rejected before the route handler runs
— leaving the store unchanged — exactly when the multer `fileFilter`
refuses the file: in part_000 whenever the declared mimetype is outside
`image/jpeg`, `image/png`, `image/webp`; in src/server.js only when
additionally to the (larger) mimetype allow-list the file name extension
is unrecognized.  The resulting status code comes from the framework
default error handler (the code does not set 415). -/
theorem C4_reject_amended (f : UploadedFile) (parse : String → Except String Obj)
    (fid : String) (convOk : Bool) (body : ReqBodySrv)
    (deathField : Option String) (fresh : String) (now : Int)
    (store : List Obj) :
    (fileFilter_p0 f = false →
      uploadP0 parse (some f) deathField fresh store =
        (.rejectedFile "Unsupported image type (jpg/png/webp only)", store)) ∧
    (fileFilter_srv f = false →
      uploadSrv parse (some f) fid convOk body fresh now store =
        (.rejectedFile "Unsupported image type (allowing jpg/png/webp/tga)", store)) := by
  constructor
  · intro h
    simp [uploadP0, h]
  · intro h
    simp [uploadSrv, h]

/-- Claim C4, amended, witness: a `video/mp4` upload named `clip.mp4` is
refused by both filters and leaves the store unchanged. -/
theorem C4_reject_amended_witness :
    fileFilter_p0 ⟨"video/mp4", "clip.mp4"⟩ = false ∧
    fileFilter_srv ⟨"video/mp4", "clip.mp4"⟩ = false ∧
    uploadP0 (fun _ => .ok []) (some ⟨"video/mp4", "clip.mp4"⟩) (some "x") "F" [] =
      (.rejectedFile "Unsupported image type (jpg/png/webp only)", []) ∧
    uploadSrv (fun _ => .ok []) (some ⟨"video/mp4", "clip.mp4"⟩) "S" true
        (.fields (some "x")) "F" 0 [] =
      (.rejectedFile "Unsupported image type (allowing jpg/png/webp/tga)", []) :=
  ⟨by decide, by decide,
   (C4_reject_amended ⟨"video/mp4", "clip.mp4"⟩ (fun _ => .ok []) "S" true
      (.fields (some "x")) (some "x") "F" 0 []).1 (by decide),
   (C4_reject_amended ⟨"video/mp4", "clip.mp4"⟩ (fun _ => .ok []) "S" true
      (.fields (some "x")) (some "x") "F" 0 []).2 (by decide)⟩

/-- Claim C5, counterexample: part_000 performs no defaulting at
ingestion — uploading a payload without `at` stores a record with no `at`
field at all (the claim requires it to equal the server receipt time),
and likewise stores no placeholder for a missing `realm`. -/
theorem C5_counterexample :
    (uploadP0 (fun _ => .ok [("player", JVal.str "A")]) none (some "x")
        "F2" []).2
      = [[("player", JVal.str "A"), ("id", JVal.str "F2")]] ∧
    getF [("player", JVal.str "A"), ("id", JVal.str "F2")] "at" = none ∧
    getF [("player", JVal.str "A"), ("id", JVal.str "F2")] "realm" = none := by
  decide

/-- Claim C5, amended: the src/server.js record construction assigns the
fresh id (whenever the payload does not itself carry an `id` field), sets
`at` to the payload value when it is a number and to the receipt time when
it is absent or a non-number, and defaults missing `player`/`realm` to the
placeholder "Unknown"; the part_000 construction assigns the fresh id
unconditionally but performs no `at`/`player`/`realm` defaulting at
ingestion (placeholders are applied at render time instead). -/
theorem C5_defaults_amended (payload : Obj) (fresh : String) (now : Int)
    (shot : Option String) (n : Int) (sv : String) :
    (getF payload "id" = none →
      getF (mkRecordSrv fresh now payload shot) "id" = some (.str fresh)) ∧
    (getF payload "at" = some (.num n) →
      getF (mkRecordSrv fresh now payload shot) "at" = some (.num n)) ∧
    (getF payload "at" = none →
      getF (mkRecordSrv fresh now payload shot) "at" = some (.num now)) ∧
    (getF payload "at" = some (.str sv) →
      getF (mkRecordSrv fresh now payload shot) "at" = some (.num now)) ∧
    (getF payload "player" = none →
      getF (mkRecordSrv fresh now payload shot) "player" = some (.str "Unknown")) ∧
    (getF payload "realm" = none →
      getF (mkRecordSrv fresh now payload shot) "realm" = some (.str "Unknown")) ∧
    (getF (mkRecordP0 fresh payload none) "id" = some (.str fresh)) ∧
    (getF payload "player" = none →
      getF (mkRecordP0 fresh payload none) "player" = none) ∧
    (getF payload "at" = none →
      getF (mkRecordP0 fresh payload none) "at" = none) := by
  refine ⟨fun h => ?_, fun h => ?_, fun h => ?_, fun h => ?_, fun h => ?_,
    fun h => ?_, ?_, fun h => ?_, fun h => ?_⟩ <;>
    simp [mkRecordSrv, mkRecordP0, getF_setF, getF_foldl, *, jsOr, Option.or]

/-- Claim C5, amended, witness at a payload carrying only a numeric `at`
and a `class`. -/
theorem C5_defaults_amended_witness :
    getF (mkRecordSrv "F3" 999 payloadW none) "id" = some (.str "F3") ∧
    getF (mkRecordSrv "F3" 999 payloadW none) "at" = some (.num 77) ∧
    getF (mkRecordSrv "F3" 999 payloadW none) "player" = some (.str "Unknown") ∧
    getF (mkRecordSrv "F3" 999 payloadW none) "realm" = some (.str "Unknown") ∧
    getF (mkRecordP0 "F3" payloadW none) "id" = some (.str "F3") ∧
    getF (mkRecordP0 "F3" payloadW none) "player" = none :=
  have h := C5_defaults_amended payloadW "F3" 999 none 77 "x"
  ⟨h.1 (by decide), h.2.1 (by decide), h.2.2.2.2.1 (by decide),
   h.2.2.2.2.2.1 (by decide), h.2.2.2.2.2.2.1, h.2.2.2.2.2.2.2.1 (by decide)⟩

/-- Claim C6, counterexample: in part_000 a present-but-unparsable `death`
field is thrown by `JSON.parse` and caught by the generic catch, answering
500 (not the claimed 400); the store is unchanged. -/
theorem C6_counterexample :
    statusOf (uploadP0 (fun _ => .error "SyntaxError: Unexpected token N")
        none (some "notjson") "F1" []).1 = some 500 ∧
    (uploadP0 (fun _ => .error "SyntaxError: Unexpected token N")
        none (some "notjson") "F1" []).2 = [] := by
  decide

/-- Claim C6, amended: a missing (or empty) `death` field answers 400 in
both variants with the store unchanged; a present-but-unparsable field
answers 400 (`bad_json`, carrying the parse error detail) in
src/server.js but 500 in part_000 — in every case the store is
unchanged and no record is appended. -/
theorem C6_badpayload_amended (parse : String → Except String Obj)
    (fid : String) (convOk : Bool) (fresh : String) (now : Int)
    (store : List Obj) (raw e : String) :
    (uploadSrv parse none fid convOk (.fields none) fresh now store =
      (.json 400 [("error", .str "missing_death_json")], store)) ∧
    (uploadP0 parse none none fresh store =
      (.json 400 [("error", .str "Missing death payload")], store)) ∧
    (raw ≠ "" → parse raw = .error e →
      uploadSrv parse none fid convOk (.fields (some raw)) fresh now store =
        (.json 400 [("error", .str "bad_json"), ("detail", .str e)], store)) ∧
    (raw ≠ "" → parse raw = .error e →
      uploadP0 parse none (some raw) fresh store =
        (.json 500 [("error", .str e)], store)) := by
  refine ⟨rfl, rfl, ?_, ?_⟩
  · intro h1 h2
    simp [uploadSrv, deathRawSrv, h1, h2]
  · intro h1 h2
    simp [uploadP0, h1, h2, catch_p0]

/-- Claim C6, amended, witness at a concrete unparsable body. -/
theorem C6_badpayload_amended_witness :
    (uploadSrv (fun _ => .error "E0") none "S" true (.fields none) "F" 0 [] =
      (.json 400 [("error", .str "missing_death_json")], [])) ∧
    (uploadP0 (fun _ => .error "E0") none none "F" [] =
      (.json 400 [("error", .str "Missing death payload")], [])) ∧
    (uploadSrv (fun _ => .error "E0") none "S" true (.fields (some "x")) "F" 0 [] =
      (.json 400 [("error", .str "bad_json"), ("detail", .str "E0")], [])) ∧
    (uploadP0 (fun _ => .error "E0") none (some "x") "F" [] =
      (.json 500 [("error", .str "E0")], [])) :=
  have h := C6_badpayload_amended (fun _ => .error "E0") "S" true "F" 0 [] "x" "E0"
  ⟨h.1, h.2.1, h.2.2.1 (by decide) rfl, h.2.2.2 (by decide) rfl⟩

/-- Claim C7, counterexample: the part_000 catch-all answers 500 with the
stringified exception in the response body — the exception message is
leaked verbatim, and the body depends on the message. -/
theorem C7_counterexample :
    catch_p0 "Error: ENOSPC write failed" =
      .json 500 [("error", JVal.str "Error: ENOSPC write failed")] ∧
    catch_p0 "Error: ENOSPC write failed" ≠ catch_p0 "Error: other" := by
  decide

/-- Claim C7, amended: the src/server.js catch-all converts any exception
to a generic `500 {error: "server_error"}` independent of the exception
text, as the claim states; the part_000 catch-all instead answers 500
with the stringified exception in the body (and the src/server.js
`bad_json` 400 carries the parse error detail, see the C6 theorem). -/
theorem C7_catch_amended (e : String) :
    catch_srv e = .json 500 [("error", .str "server_error")] ∧
    catch_p0 e = .json 500 [("error", .str e)] :=
  ⟨rfl, rfl⟩

/-- Claim C8 (confirmed): the part_000 profile page reports the number of
records whose `player@realm` slug matches, and its money total is the
decomposed string of the sum of the numeric `moneyCopperOnly` fields of
the matching records (absent when none carries one); two matching records
with totals 100 and 50 report `0g 1s 50c`. -/
theorem C8_profile (store : List Obj) (slug : String)
    (h : store.filter (fun d => slugFor d == slug) ≠ []) :
    profileGet store slug =
      .page (store.filter (fun d => slugFor d == slug)).length
        (tallyTotals (store.filter (fun d => slugFor d == slug))) ∧
    tallyTotals (store.filter (fun d => slugFor d == slug)) =
      (if moneyVals (store.filter (fun d => slugFor d == slug)) = [] then none
       else some (gscString
         (moneyVals (store.filter (fun d => slugFor d == slug))).sum)) ∧
    profileGet profileStoreEx "Bob@Realm" = .page 2 (some "0g 1s 50c") := by
  refine ⟨?_, tallyTotals_eq _, by decide⟩
  unfold profileGet
  simp only [List.length_eq_zero]
  simp [h]

/-- Claim C8, witness at the two-record store of the claim. -/
theorem C8_profile_witness :
    profileStoreEx.filter (fun d => slugFor d == "Bob@Realm") ≠ [] ∧
    profileGet profileStoreEx "Bob@Realm" = .page 2 (some "0g 1s 50c") :=
  ⟨by decide, (C8_profile profileStoreEx "Bob@Realm" (by decide)).2.2⟩

/-- Claim C9, counterexample: the part_000 home page renders records in
stored order, not sorted by `at` descending — a store holding an older
record before a newer one is rendered unsorted. -/
theorem C9_counterexample :
    homeRows_p0 [rLow, rHigh] = [rLow, rHigh] ∧
    ¬ List.Sorted (fun a b => atKey b ≤ atKey a) (homeRows_p0 [rLow, rHigh]) := by
  constructor
  · rfl
  · decide

/-- Claim C9, amended: the src/server.js home page renders a permutation
of the whole store sorted by `at` descending (missing `at` as 0) with no
cap on the count, while the part_000 home page renders the first 50
records in stored order (capped, unsorted). -/
theorem C9_home_amended (store : List Obj) :
    (homeRows_srv store).Perm store ∧
    List.Sorted (fun a b => atKey b ≤ atKey a) (homeRows_srv store) ∧
    (homeRows_srv store).length = store.length ∧
    homeRows_p0 store = store.take 50 ∧
    (homeRows_p0 store).length ≤ 50 := by
  have hperm := List.mergeSort_perm store (fun a b => decide (atKey b ≤ atKey a))
  have htrans : ∀ a b c : Obj, (decide (atKey b ≤ atKey a)) = true →
      (decide (atKey c ≤ atKey b)) = true →
      (decide (atKey c ≤ atKey a)) = true := by
    intro a b c h1 h2
    simp only [decide_eq_true_eq] at h1 h2 ⊢
    omega
  have htotal : ∀ a b : Obj,
      ((decide (atKey b ≤ atKey a)) || (decide (atKey a ≤ atKey b))) = true := by
    intro a b
    simp only [Bool.or_eq_true, decide_eq_true_eq]
    omega
  have hsorted := @List.sorted_mergeSort Obj
    (fun a b => decide (atKey b ≤ atKey a)) htrans htotal store
  refine ⟨hperm, ?_, hperm.length_eq, rfl, List.length_take_le 50 store⟩
  exact hsorted.imp (fun hd => by simpa using hd)

/-- Claim C10 (confirmed): for every nonnegative copper total, the shared
gold/silver/copper decomposition used by `moneyString`, `fmtMoneyHTML` and
`tallyTotals` satisfies `10000*g + 100*s + c = t` with both the silver and
the copper component in `[0, 100)`. -/
theorem C10_gsc_decomposition (t : Int) (h : 0 ≤ t) :
    10000 * (gscDecomp t).1 + 100 * (gscDecomp t).2.1 + (gscDecomp t).2.2 = t ∧
    0 ≤ (gscDecomp t).2.1 ∧ (gscDecomp t).2.1 < 100 ∧
    0 ≤ (gscDecomp t).2.2 ∧ (gscDecomp t).2.2 < 100 := by
  simp only [gscDecomp]
  have h1 : Int.fdiv t 10000 = t / 10000 := Int.fdiv_eq_ediv t (by norm_num)
  have h2 : Int.tmod t 10000 = t % 10000 := Int.tmod_eq_emod h (by norm_num)
  have h3 : Int.tmod t 100 = t % 100 := Int.tmod_eq_emod h (by norm_num)
  rw [h1, h2, h3]
  have h4 : Int.fdiv (t % 10000) 100 = (t % 10000) / 100 :=
    Int.fdiv_eq_ediv _ (by norm_num)
  rw [h4]
  refine ⟨?_, ?_, ?_, ?_, ?_⟩ <;> omega

/-- Claim C10, witness at the total 12345 of the specification. -/
theorem C10_gsc_decomposition_witness :
    (0 : Int) ≤ 12345 ∧
    (10000 * (gscDecomp 12345).1 + 100 * (gscDecomp 12345).2.1 +
        (gscDecomp 12345).2.2 = 12345 ∧
      0 ≤ (gscDecomp 12345).2.1 ∧ (gscDecomp 12345).2.1 < 100 ∧
      0 ≤ (gscDecomp 12345).2.2 ∧ (gscDecomp 12345).2.2 < 100) :=
  ⟨by decide, C10_gsc_decomposition 12345 (by decide)⟩

end DeathLogger
